import Mathlib

/-!
Verification of the request-orchestration and adaptive-recovery engine of
`src/electron/ProcessingHelper.ts` (capability registry, model selector,
payload shaper, retry/fallback executor, debug memory store, debug prompt
builder), shallowly embedded in Lean.

Conventions of the embedding:
* JS numbers that are used as integers are `Nat`; `Math.floor(x * 0.5)` on a
  nonnegative integer is `x / 2` (Nat division).
* The registry object `GEMINI_MODEL_CONFIGS` is a partial map
  `String → Option GeminiModelConfig`.  In the source, `modelConfig` inside
  `makeGeminiRequest` is a *reference* into this registry (the invariant
  `currentModel = modelConfig.name =` registry key of the aliased entry holds
  throughout), so field assignment through `modelConfig` is modelled as a
  functional update of the registry at key `currentModel`, and the registry is
  threaded through the executor state.
* Provider calls are replaced by an oracle `List CallOutcome`: each iteration
  of the retry loop consumes one injected outcome.  The executor never reads
  the abort signal; a caller-triggered abort surfaces as the injected error
  being an axios cancellation error (`code = ERR_CANCELED`, `canceled = true`).
* `String.prototype.includes` is substring containment (`hasSub`).
-/

/-- `pat` matches at the head of `s`. -/
def prefixMatches : List Char → List Char → Bool
  | [], _ => true
  | _ :: _, [] => false
  | a :: as, b :: bs => if a = b then prefixMatches as bs else false

/-- `pat` occurs somewhere in `s`. -/
def hasSubList (pat : List Char) : List Char → Bool
  | [] => prefixMatches pat []
  | c :: cs => prefixMatches pat (c :: cs) || hasSubList pat cs

/-- Substring test; embeds JavaScript `String.prototype.includes`. -/
def hasSub (pat s : String) : Bool :=
  hasSubList pat.toList s.toList

/-- `interface GeminiModelConfig` from ProcessingHelper.ts.  `temperature` is
an exact constant (0.2) in the source; it is embedded as a rational. -/
structure GeminiModelConfig where
  name : String
  maxInputTokens : Nat
  maxOutputTokens : Nat
  imageLimit : Nat
  isFlash : Bool
  temperature : ℚ
  contextWindow : Nat
deriving DecidableEq, Repr

/-- A partial map from model names to configs, the shape of the JS object
`GEMINI_MODEL_CONFIGS` (whose key set is fixed; only field values of entries
are ever written, through the aliasing described in the module docstring). -/
def Registry : Type := String → Option GeminiModelConfig

/-- The entry `'gemini-2.5-flash'` of `GEMINI_MODEL_CONFIGS`. -/
def flash25Config : GeminiModelConfig :=
  { name := "gemini-2.5-flash", maxInputTokens := 1000000,
    maxOutputTokens := 8192, imageLimit := 16, isFlash := true,
    temperature := 2/10, contextWindow := 1000000 }

/-- The entry `'gemini-2.5-pro'` of `GEMINI_MODEL_CONFIGS`. -/
def pro25Config : GeminiModelConfig :=
  { name := "gemini-2.5-pro", maxInputTokens := 2000000,
    maxOutputTokens := 10000, imageLimit := 50, isFlash := false,
    temperature := 2/10, contextWindow := 2000000 }

/-- The entry `'gemini-1.5-pro'` of `GEMINI_MODEL_CONFIGS`. -/
def pro15Config : GeminiModelConfig :=
  { name := "gemini-1.5-pro", maxInputTokens := 2000000,
    maxOutputTokens := 8192, imageLimit := 50, isFlash := false,
    temperature := 2/10, contextWindow := 2000000 }

/-- The entry `'gemini-2.0-flash'` of `GEMINI_MODEL_CONFIGS`. -/
def flash20Config : GeminiModelConfig :=
  { name := "gemini-2.0-flash", maxInputTokens := 1000000,
    maxOutputTokens := 8192, imageLimit := 16, isFlash := true,
    temperature := 2/10, contextWindow := 1000000 }

/-- `const GEMINI_MODEL_CONFIGS : Record<string, GeminiModelConfig>` at process
start (the literal initializer in ProcessingHelper.ts). -/
def GEMINI_MODEL_CONFIGS : Registry := fun name =>
  if name = "gemini-2.5-flash" then some flash25Config
  else if name = "gemini-2.5-pro" then some pro25Config
  else if name = "gemini-1.5-pro" then some pro15Config
  else if name = "gemini-2.0-flash" then some flash20Config
  else none

/-- Placeholder for the JS value `undefined`: accessing a field of it would
throw in JS.  It is only ever reached if both `reg[name]` and
`reg['gemini-2.5-pro']` are absent, which cannot happen since keys of the
registry are never added or removed. -/
def undefinedConfig : GeminiModelConfig :=
  { name := "", maxInputTokens := 0, maxOutputTokens := 0, imageLimit := 0,
    isFlash := false, temperature := 0, contextWindow := 0 }

/-- `getGeminiModelConfig(modelName, imageCount, isDebug)` — the Model
Selector.  It reads the (possibly already mutated) registry, so the registry
is an explicit argument. -/
def getGeminiModelConfig (reg : Registry) (modelName : String)
    (imageCount : Nat) (isDebug : Bool) : GeminiModelConfig :=
  let config := (reg modelName).getD ((reg "gemini-2.5-pro").getD undefinedConfig)
  if isDebug = true ∧ 5 < imageCount ∧ config.isFlash = true then
    (reg "gemini-2.5-pro").getD undefinedConfig
  else
    let proConfig := (reg "gemini-2.5-pro").getD undefinedConfig
    if config.imageLimit < imageCount ∧ imageCount ≤ proConfig.imageLimit then
      proConfig
    else config

/-- `optimizeImagesForGemini(imageDataList, modelConfig)` — the Payload
Shaper.  (The `isFlash` branch in the source only logs.) -/
def optimizeImagesForGemini (imageDataList : List String)
    (modelConfig : GeminiModelConfig) : List String :=
  let optimizedImages := imageDataList
  if modelConfig.imageLimit < optimizedImages.length then
    optimizedImages.take modelConfig.imageLimit
  else optimizedImages

/-- One element of `messages[0].parts`: a Gemini message part carries either
`text` or `inlineData` (an attached image); the executor only ever
discriminates on the presence of `inlineData`. -/
inductive GeminiPart where
  | text (s : String)
  | inlineData (mimeType data : String)
deriving DecidableEq, Repr

/-- `part.inlineData` is truthy. -/
def GeminiPart.isImage : GeminiPart → Bool
  | .text _ => false
  | .inlineData _ _ => true

/-- One element of the `messages` array passed to `makeGeminiRequest`. -/
structure GeminiMessage where
  role : String
  parts : List GeminiPart
deriving DecidableEq, Repr

/-- `messages[0]?.parts?.filter(part => part.inlineData) || []`. -/
def imagesOfMessages (messages : List GeminiMessage) : List GeminiPart :=
  match messages with
  | [] => []
  | m :: _ => m.parts.filter GeminiPart.isImage

/-- The error value caught by `makeGeminiRequest`'s retry loop.
`status` is `error.response?.status` (`none` = no HTTP response),
`dataMessage` is `error.response.data?.error?.message || ''`,
`code` is `error.code`, `message` is `error.message`, and `canceled` is the
axios `__CANCEL__` marker tested by `axios.isCancel`. -/
structure GeminiError where
  status : Option Nat
  dataMessage : String
  code : Option String
  message : String
  canceled : Bool
deriving DecidableEq, Repr

/-- `errorMessage.includes('token') || errorMessage.includes('limit')`. -/
def tokenLimitClass (e : GeminiError) : Bool :=
  hasSub "token" e.dataMessage || hasSub "limit" e.dataMessage

/-- `errorMessage.includes('image') || errorMessage.includes('media')`. -/
def imageClass (e : GeminiError) : Bool :=
  hasSub "image" e.dataMessage || hasSub "media" e.dataMessage

/-- `error.code === 'ECONNRESET' || error.code === 'ETIMEDOUT' ||
error.message?.includes('timeout') || error.message?.includes('socket hang up')`. -/
def networkClass (e : GeminiError) : Bool :=
  (e.code = some "ECONNRESET" : Bool) || (e.code = some "ETIMEDOUT" : Bool) ||
    hasSub "timeout" e.message || hasSub "socket hang up" e.message

/-- Functional update of the registry entry at `key` with a new
`maxOutputTokens` value: the effect of `modelConfig.maxOutputTokens = v`
written through the alias into `GEMINI_MODEL_CONFIGS[key]`. -/
def setMaxOutputTokens (reg : Registry) (key : String) (v : Nat) : Registry :=
  fun n => if n = key then (reg key).map (fun c => { c with maxOutputTokens := v }) else reg n

/-- The `maxOutputTokens` of the registry entry currently aliased by
`modelConfig` (the current output-token budget of the run). -/
def budgetOf (reg : Registry) (key : String) : Nat :=
  ((reg key).getD undefinedConfig).maxOutputTokens

/-- `messages[0].parts = [...textParts, ...imageParts.slice(0, reducedCount)]`
where `reducedCount = Math.max(1, Math.floor(currentImages.length * 0.5))` —
the image-count recovery of the retry loop.  In the source this is an
in-place mutation of the caller-owned `messages` array; here the updated
array is threaded through the executor state and surfaced in the result. -/
def reduceMessagesImages (messages : List GeminiMessage) : List GeminiMessage :=
  match messages with
  | [] => []
  | m :: rest =>
    let currentImages := m.parts.filter GeminiPart.isImage
    let reducedCount := max 1 (currentImages.length / 2)
    let textParts := m.parts.filter (fun p => ¬ p.isImage)
    { m with parts := textParts ++ currentImages.take reducedCount } :: rest

/-- Result of one iteration of the `catch` block of the retry loop. -/
inductive StepRes where
  | throwErr (e : GeminiError)
  | next (reg : Registry) (messages : List GeminiMessage) (currentModel : String)
      (delay : Option Nat)

/-- One execution of the `catch (error)` block of `makeGeminiRequest`'s
`while` loop, entered with the pre-increment `attempt` value (the loop
guarantees `attempt < maxRetries`).  Returns either the thrown error or the
state (`registry`, `messages`, `currentModel`, optional backoff delay) with
which the loop continues at `attempt + 1`.  The branch structure mirrors the
source: the two token-limit recoveries, then the image recovery (all under
`status === 400`), then the two network fallbacks, then
`if (attempt >= maxRetries) throw error`, then exponential backoff. -/
def geminiCatchStep (reg : Registry) (messages : List GeminiMessage)
    (currentModel : String) (attempt maxRetries : Nat) (e : GeminiError) : StepRes :=
  let attempt' := attempt + 1
  let cfg := (reg currentModel).getD undefinedConfig
  if e.status = some 400 ∧ tokenLimitClass e = true ∧ 2048 < cfg.maxOutputTokens then
    .next (setMaxOutputTokens reg currentModel (max 2048 (cfg.maxOutputTokens / 2)))
      messages currentModel none
  else if e.status = some 400 ∧ tokenLimitClass e = true ∧
      currentModel ≠ "gemini-2.5-flash" ∧ attempt' < maxRetries then
    .next reg messages "gemini-2.5-flash" none
  else if e.status = some 400 ∧ imageClass e = true ∧
      1 < (imagesOfMessages messages).length then
    .next reg (reduceMessagesImages messages) currentModel none
  else if networkClass e = true ∧ attempt' < maxRetries ∧
      currentModel = "gemini-2.5-pro" ∧ (reg "gemini-2.5-flash").isSome = true then
    .next reg messages "gemini-2.5-flash" none
  else if networkClass e = true ∧ attempt' < maxRetries ∧
      currentModel = "gemini-2.5-flash" ∧ (reg "gemini-1.5-pro").isSome = true then
    .next reg messages "gemini-1.5-pro" none
  else if maxRetries ≤ attempt' then
    .throwErr e
  else
    .next reg messages currentModel (some (min (1000 * 2 ^ (attempt' - 1)) 5000))

/-- The injected outcome of one provider call (`axios.default.post`). -/
inductive CallOutcome where
  | ok (resp : String)
  | err (e : GeminiError)
deriving DecidableEq, Repr

/-- How a run of the retry loop ends.  `errorThrown e` is `throw error` of the
underlying provider error; `allRetriesFailed` is the final
`throw new Error('All retry attempts failed')` reached when a recovery branch
`continue`s but the loop condition `attempt < maxRetries` then fails;
`oracleOut` is an artifact of the embedding (the loop wanted one more
provider call than the oracle supplies). -/
inductive ExecOutcome where
  | success (resp : String)
  | errorThrown (e : GeminiError)
  | allRetriesFailed
  | oracleOut
deriving DecidableEq, Repr

/-- Observable result of a run of `makeGeminiRequest`: the outcome, the
per-call trace (model name and output-token budget of each provider call
issued, in order), the backoff delays performed (ms, in order), and the final
registry / messages / model (the first two are caller-visible mutations). -/
structure ExecResult where
  outcome : ExecOutcome
  trace : List (String × Nat)
  delays : List Nat
  registry : Registry
  messages : List GeminiMessage
  finalModel : String

/-- The `while (attempt < maxRetries)` loop of `makeGeminiRequest`, with one
oracle entry consumed per provider call. -/
def geminiLoop (reg : Registry) (messages : List GeminiMessage)
    (currentModel : String) (attempt maxRetries : Nat)
    (oracle : List CallOutcome) : ExecResult :=
  if attempt < maxRetries then
    match oracle with
    | [] => ⟨.oracleOut, [], [], reg, messages, currentModel⟩
    | .ok resp :: _ =>
      ⟨.success resp, [(currentModel, budgetOf reg currentModel)], [], reg,
        messages, currentModel⟩
    | .err e :: rest =>
      let entry := (currentModel, budgetOf reg currentModel)
      match geminiCatchStep reg messages currentModel attempt maxRetries e with
      | .throwErr e' => ⟨.errorThrown e', [entry], [], reg, messages, currentModel⟩
      | .next reg' messages' model' d =>
        let r := geminiLoop reg' messages' model' (attempt + 1) maxRetries rest
        ⟨r.outcome, entry :: r.trace,
          (match d with | some v => v :: r.delays | none => r.delays),
          r.registry, r.messages, r.finalModel⟩
  else ⟨.allRetriesFailed, [], [], reg, messages, currentModel⟩

/-- `makeGeminiRequest(modelName, messages, signal, maxRetries, isDebug)` —
the Request Executor.  The registry is the process-global
`GEMINI_MODEL_CONFIGS` at call time; the oracle injects each provider call's
outcome.  The loop never reads the abort signal: cancellation reaches it only
as an injected axios cancellation error. -/
def makeGeminiRequest (reg : Registry) (modelName : String)
    (messages : List GeminiMessage) (maxRetries : Nat) (isDebug : Bool)
    (oracle : List CallOutcome) : ExecResult :=
  let imageCount := (imagesOfMessages messages).length
  let modelConfig := getGeminiModelConfig reg modelName imageCount isDebug
  geminiLoop reg messages modelConfig.name 0 maxRetries oracle

/-- The outer `catch` of `processScreenshotsHelper` (lines 1224-1255): maps a
thrown error to the user-facing `error` string of its tagged result.
`axios.isCancel` is the `canceled` marker; the final case is
`error.message || "Failed to process screenshots. Please try again."`.
Note: on the Gemini provider path an error thrown by `makeGeminiRequest` never
reaches this catch — the inner per-provider catch (`extractionGeminiCatch`
below) returns a tagged failure first. -/
def processScreenshotsCatch (e : GeminiError) : String :=
  if e.canceled = true then "Processing was canceled by the user."
  else if e.status = some 401 then "Invalid OpenAI API key. Please check your settings."
  else if e.status = some 429 then
    "OpenAI API rate limit exceeded or insufficient credits. Please try again later."
  else if e.status = some 500 then "OpenAI server error. Please try again later."
  else if e.message = "" then "Failed to process screenshots. Please try again."
  else e.message

/-- The inner `catch` wrapping the Gemini branch of the extraction flow
(ProcessingHelper.ts lines 1101-1124), which receives every error thrown by
`makeGeminiRequest` there.  It has no `axios.isCancel` check: HTTP 429 and
token-class HTTP 400 errors get specific messages, everything else — a
cancellation error included — the generic Gemini failure.  (The solution and
debug flows at lines 1398-1421 and 1759-1787 have the same shape.) -/
def extractionGeminiCatch (e : GeminiError) : String :=
  if e.status = some 429 then
    "Gemini API rate limit exceeded. Please wait a moment and try again."
  else if e.status = some 400 ∧ hasSub "token" e.dataMessage = true then
    "Content too large for Gemini. Try using fewer or smaller screenshots."
  else
    "Failed to process with Gemini API. Please check your API key or try again later."

/-- `interface PreviousSolution` from src/types/solutions.ts. -/
structure PreviousSolution where
  id : String
  code : String
  timestamp : Nat
  success : Bool
  failed_test_cases : Option (List String)
  error_message : Option String
  language : String
  problem_statement : String
deriving DecidableEq, Repr

/-- `Omit<PreviousSolution, 'id' | 'timestamp'>` — the argument of
`storeSolutionAttempt`. -/
structure SolutionAttemptData where
  code : String
  success : Bool
  failed_test_cases : Option (List String)
  error_message : Option String
  language : String
  problem_statement : String
deriving DecidableEq, Repr

/-- `private maxStoredSolutions = 10`. -/
def maxStoredSolutions : Nat := 10

/-- The `newSolution` built inside `storeSolutionAttempt`:
`{ ...solution, id: Date.now().toString(), timestamp: Date.now() }` with
`Date.now()` supplied as `now`. -/
def mkPreviousSolution (solution : SolutionAttemptData) (now : Nat) : PreviousSolution :=
  { id := toString now, code := solution.code, timestamp := now,
    success := solution.success, failed_test_cases := solution.failed_test_cases,
    error_message := solution.error_message, language := solution.language,
    problem_statement := solution.problem_statement }

/-- `storeSolutionAttempt(solution)` — `record` of the Debug Memory Store
(`this.previousSolutions` is the state; the identical method also exists in
`DebugEnhancementService`).  Prepends via `unshift`, then trims with
`slice(0, maxStoredSolutions)` once the cap is exceeded. -/
def storeSolutionAttempt (previousSolutions : List PreviousSolution)
    (solution : SolutionAttemptData) (now : Nat) : List PreviousSolution :=
  let store := mkPreviousSolution solution now :: previousSolutions
  if maxStoredSolutions < store.length then store.take maxStoredSolutions else store

/-- A sequence of `storeSolutionAttempt` calls (each with its `Date.now()`
value), starting from the empty store. -/
def recordAll (attempts : List (SolutionAttemptData × Nat)) : List PreviousSolution :=
  attempts.foldl (fun store a => storeSolutionAttempt store a.1 a.2) []

/-- `getPreviousSolutions(problemStatement, limit)` — `recentFor` of the Debug
Memory Store: exact-match filter on the problem statement, newest first,
truncated to `limit`. -/
def getPreviousSolutions (previousSolutions : List PreviousSolution)
    (problemStatement : String) (limit : Nat) : List PreviousSolution :=
  (previousSolutions.filter
    (fun sol => decide (sol.problem_statement = problemStatement))).take limit

/-- `DebugEnhancementService.getLastWorkingSolution(problemStatement)` —
`lastWorkingFor`: first entry for the problem with `success == true`
(`|| null` becomes `Option`). -/
def getLastWorkingSolution (previousSolutions : List PreviousSolution)
    (problemStatement : String) : Option PreviousSolution :=
  previousSolutions.find?
    (fun sol => decide (sol.problem_statement = problemStatement) && sol.success)

/-- The failure records produced by `analyzeTestCaseFailures` and consumed by
`generateEnhancedDebugPrompt`. -/
structure TestCaseFailure where
  test_case_id : String
  expected : String
  actual : String
  error_type : String
deriving DecidableEq, Repr

/-- JS `x || d` on an optional string (both `undefined` and `''` are falsy). -/
def orDefaultStr (s : Option String) (d : String) : String :=
  match s with
  | none => d
  | some v => if v = "" then d else v

/-- `attempt.failed_test_cases?.join(', ') || 'Not specified'`. -/
def failedCasesText (cases : Option (List String)) : String :=
  orDefaultStr (cases.map (fun l => String.intercalate ", " l)) "Not specified"

/-- The first `prompt = ...` template of `generateEnhancedDebugPrompt`. -/
def debugPromptBase (problemStatement language currentCode : String) : String :=
  "You are a coding interview assistant helping debug and improve solutions. I need detailed help with debugging my current solution that has failing test cases.\n\nPROBLEM: \"" ++ problemStatement ++ "\"\nLANGUAGE: " ++ language ++ "\n\nCURRENT CODE:\n```" ++ language ++ "\n" ++ currentCode ++ "\n```\n\n"

/-- The `if (lastWorkingSolution) prompt += ...` block: the
"PREVIOUS WORKING SOLUTION" section is emitted only when a `success == true`
entry was found. -/
def workingSolutionSection (language : String) : Option PreviousSolution → String
  | none => ""
  | some sol =>
    "PREVIOUS WORKING SOLUTION (for reference):\n```" ++ language ++ "\n" ++
      sol.code ++ "\n```\n\n"

/-- The `if (failedTestCases.length > 0) prompt += ...` block. -/
def failedTestCasesSection (failedTestCases : List TestCaseFailure) : String :=
  if failedTestCases.length = 0 then ""
  else
    "FAILED TEST CASES:\n" ++
      String.intercalate "\n" (failedTestCases.enum.map (fun p =>
        toString (p.1 + 1) ++ ". Test Case " ++ p.2.test_case_id ++
          ":\n   - Expected: " ++ p.2.expected ++ "\n   - Actual: " ++ p.2.actual ++
          "\n   - Error Type: " ++ p.2.error_type)) ++ "\n\n"

/-- The `if (previousSolutions.length > 0) { ... }` block: a summary of up to
two recent unsuccessful attempts. -/
def recentFailuresSection (previousSolutions : List PreviousSolution) : String :=
  if previousSolutions.length = 0 then ""
  else
    let recentFailures := (previousSolutions.filter (fun s => ¬ s.success)).take 2
    if recentFailures.length = 0 then ""
    else
      "RECENT FAILED ATTEMPTS:\n" ++
        String.intercalate "\n" (recentFailures.enum.map (fun p =>
          toString (p.1 + 1) ++ ". Previous attempt failed with: " ++
            orDefaultStr p.2.error_message "Unknown error" ++
            "\n   Failed test cases: " ++ failedCasesText p.2.failed_test_cases)) ++ "\n\n"

/-- The final `prompt += ...` block pinning the response structure (with the
ternary on `lastWorkingSolution` in the Code Comparison Analysis bullet). -/
def responseStructureSection (language : String)
    (lastWorkingSolution : Option PreviousSolution) : String :=
  "YOUR RESPONSE MUST FOLLOW THIS EXACT STRUCTURE:\n\n### Issues Identified\n- List each specific issue found in the current code compared to requirements and previous working solution\n\n### Code Comparison Analysis\n" ++
    (if lastWorkingSolution.isSome then
      "- Compare current code with the previous working solution and highlight key differences"
    else "- Analyze the current code structure and logic flow") ++
    "\n\n### Specific Test Case Fixes\n- For each failed test case, provide specific fixes needed\n- Reference the exact test case numbers and expected vs actual outputs\n\n### Step-by-Step Fix Plan\n1. Numbered steps to fix the code\n2. Each step should be specific and actionable\n3. Include code snippets where helpful\n\n### Improved Solution\n```" ++
    language ++
    "\n// Provide the corrected code here\n```\n\n### Why This Fix Works\n- Explain how the fixes address each failed test case\n- Reference how this aligns with the previous working approach (if applicable)\n\nFocus especially on the failed test cases and provide concrete, actionable debugging advice."

/-- `generateEnhancedDebugPrompt(problemStatement, language, currentCode,
previousSolutions, failedTestCases)` — the debug Prompt Builder.
`lastWorkingSolution = previousSolutions.find(s => s.success)`. -/
def generateEnhancedDebugPrompt (problemStatement language currentCode : String)
    (previousSolutions : List PreviousSolution)
    (failedTestCases : List TestCaseFailure) : String :=
  let lastWorkingSolution := previousSolutions.find? (fun s => s.success)
  debugPromptBase problemStatement language currentCode ++
    workingSolutionSection language lastWorkingSolution ++
    failedTestCasesSection failedTestCases ++
    recentFailuresSection previousSolutions ++
    responseStructureSection language lastWorkingSolution

/-- The `storeSolutionAttempt` argument built at the end of
`processExtraScreenshotsHelper` (lines 1895-1905): a debug session is always
recorded with `success: false`. -/
def debugAttemptData (extractedCode : String)
    (failedTestCases : List TestCaseFailure) (language problemStatement : String) :
    SolutionAttemptData :=
  { code := extractedCode, success := false,
    failed_test_cases := some (failedTestCases.map (fun f => f.test_case_id)),
    error_message := some "Debug session - improving previous solution",
    language := language, problem_statement := problemStatement }

/-- The inputs of one debug session that reach the recording step. -/
structure DebugSession where
  extractedCode : String
  failedTestCases : List TestCaseFailure
  language : String
  problemStatement : String
  now : Nat
deriving Repr

/-- The guarded recording step of `processExtraScreenshotsHelper`:
`if (extractedCode && extractedCode !== "// Debug mode - see analysis below")
this.storeSolutionAttempt({...})`. -/
def debugSessionStep (store : List PreviousSolution) (s : DebugSession) :
    List PreviousSolution :=
  if s.extractedCode ≠ "" ∧ s.extractedCode ≠ "// Debug mode - see analysis below" then
    storeSolutionAttempt store
      (debugAttemptData s.extractedCode s.failedTestCases s.language s.problemStatement)
      s.now
  else store

/-- The Debug Memory Store after a sequence of debug sessions, starting from
the empty store. -/
def runDebugSessions (sessions : List DebugSession) : List PreviousSolution :=
  sessions.foldl debugSessionStep []

/-- A provider error of the output-token-limit class: HTTP 400 whose body
message mentions the token limit. -/
def tokenLimitErr : GeminiError :=
  { status := some 400,
    dataMessage := "The request exceeds the output token limit.",
    code := none, message := "Request failed with status code 400",
    canceled := false }

/-- A provider error of the image/media-rejection class: HTTP 400 whose body
message mentions images. -/
def imageCountErr : GeminiError :=
  { status := some 400, dataMessage := "too many images in request",
    code := none, message := "Request failed with status code 400",
    canceled := false }

/-- The axios cancellation error produced when the caller's abort signal
fires during a request. -/
def cancelErr : GeminiError :=
  { status := none, dataMessage := "", code := some "ERR_CANCELED",
    message := "canceled", canceled := true }

/-- A transport-class error (connection reset, no HTTP response). -/
def networkResetErr : GeminiError :=
  { status := none, dataMessage := "", code := some "ECONNRESET",
    message := "socket hang up", canceled := false }

/-- An unclassified provider error (HTTP 500). -/
def serverErr : GeminiError :=
  { status := some 500, dataMessage := "Internal error",
    code := none, message := "Request failed with status code 500",
    canceled := false }

/-- A payload with one text part and two attached images. -/
def sampleMessages : List GeminiMessage :=
  [ { role := "user",
      parts := [GeminiPart.text "prompt",
        GeminiPart.inlineData "image/png" "imgA",
        GeminiPart.inlineData "image/png" "imgB"] } ]

/-- A fixed solution-attempt record used by concrete store runs. -/
def sampleAttemptData : SolutionAttemptData :=
  { code := "return 42", success := false, failed_test_cases := none,
    error_message := none, language := "python", problem_statement := "Two Sum" }

/-- Eleven `storeSolutionAttempt` calls (one more than the cap). -/
def elevenAttempts : List (SolutionAttemptData × Nat) :=
  (List.range 11).map (fun i => (sampleAttemptData, i))

/-- Two concrete debug sessions for the same problem. -/
def sampleDebugSessions : List DebugSession :=
  [ { extractedCode := "def solve(): pass", failedTestCases := [],
      language := "python", problemStatement := "Two Sum", now := 5 },
    { extractedCode := "def solve(): return 0", failedTestCases := [],
      language := "python", problemStatement := "Two Sum", now := 9 } ]

/-- C6: for every input image list and target profile, the Payload Shaper
`optimizeImagesForGemini` returns exactly the first
`min(length, imageLimit)` elements of the input in their original relative
order; when the input exceeds the ceiling the result's length equals the
ceiling, and otherwise the result is the input itself. -/
theorem optimizeImages_exact_truncation (imageDataList : List String)
    (modelConfig : GeminiModelConfig) :
    optimizeImagesForGemini imageDataList modelConfig =
      imageDataList.take (min imageDataList.length modelConfig.imageLimit) ∧
    (modelConfig.imageLimit < imageDataList.length →
      (optimizeImagesForGemini imageDataList modelConfig).length = modelConfig.imageLimit) ∧
    (imageDataList.length ≤ modelConfig.imageLimit →
      optimizeImagesForGemini imageDataList modelConfig = imageDataList) := by
  unfold optimizeImagesForGemini
  by_cases h : modelConfig.imageLimit < imageDataList.length
  · simp only [h, if_pos]
    refine ⟨?_, fun _ => ?_, fun h2 => absurd h (not_lt.mpr h2)⟩
    · rw [Nat.min_eq_right (le_of_lt h)]
    · rw [List.length_take, Nat.min_eq_left (le_of_lt h)]
  · have h2 : imageDataList.length ≤ modelConfig.imageLimit := not_lt.mp h
    simp only [if_neg h]
    exact ⟨by rw [Nat.min_eq_left h2, List.take_length], fun h3 => absurd h3 h,
      fun _ => trivial⟩

/-- Witness for C6 at concrete inputs: 20 images are cut to the 16-image
ceiling of the flash profile, and 3 images pass through unchanged. -/
theorem optimizeImages_exact_truncation_witness :
    (optimizeImagesForGemini (List.replicate 20 "x") flash25Config).length =
      flash25Config.imageLimit ∧
    optimizeImagesForGemini ["a", "b", "c"] flash25Config = ["a", "b", "c"] :=
  ⟨(optimizeImages_exact_truncation (List.replicate 20 "x") flash25Config).2.1 (by decide),
   (optimizeImages_exact_truncation ["a", "b", "c"] flash25Config).2.2 (by decide)⟩

/-- C7: the Model Selector `getGeminiModelConfig` applies its rules in order
with first match winning: (1) debug task with more than 5 images on a flash
profile upgrades to `gemini-2.5-pro`; (2) otherwise an image count above the
requested profile's ceiling but within the pro ceiling switches to
`gemini-2.5-pro`; (3) otherwise the requested profile is used, with the
lookup falling back to the default (`gemini-2.5-pro`) for unregistered
names. -/
theorem selector_policy_order (modelName : String) (imageCount : Nat) (isDebug : Bool) :
    (isDebug = true ∧ 5 < imageCount ∧
        ((GEMINI_MODEL_CONFIGS modelName).getD pro25Config).isFlash = true →
      getGeminiModelConfig GEMINI_MODEL_CONFIGS modelName imageCount isDebug = pro25Config) ∧
    (¬ (isDebug = true ∧ 5 < imageCount ∧
        ((GEMINI_MODEL_CONFIGS modelName).getD pro25Config).isFlash = true) →
      ((GEMINI_MODEL_CONFIGS modelName).getD pro25Config).imageLimit < imageCount →
      imageCount ≤ pro25Config.imageLimit →
      getGeminiModelConfig GEMINI_MODEL_CONFIGS modelName imageCount isDebug = pro25Config) ∧
    (¬ (isDebug = true ∧ 5 < imageCount ∧
        ((GEMINI_MODEL_CONFIGS modelName).getD pro25Config).isFlash = true) →
      ¬ (((GEMINI_MODEL_CONFIGS modelName).getD pro25Config).imageLimit < imageCount ∧
          imageCount ≤ pro25Config.imageLimit) →
      getGeminiModelConfig GEMINI_MODEL_CONFIGS modelName imageCount isDebug =
        (GEMINI_MODEL_CONFIGS modelName).getD pro25Config) := by
  have hpro : GEMINI_MODEL_CONFIGS "gemini-2.5-pro" = some pro25Config := rfl
  unfold getGeminiModelConfig
  rw [hpro]
  simp only [Option.getD_some]
  refine ⟨fun h => ?_, fun h1 h2 h3 => ?_, fun h1 h2 => ?_⟩
  · rw [if_pos h]
  · rw [if_neg h1, if_pos ⟨h2, h3⟩]
  · rw [if_neg h1, if_neg h2]

/-- Witness for C7: one concrete instance of each selector rule, including
the unregistered-name fallback. -/
theorem selector_policy_order_witness :
    getGeminiModelConfig GEMINI_MODEL_CONFIGS "gemini-2.5-flash" 10 true = pro25Config ∧
    getGeminiModelConfig GEMINI_MODEL_CONFIGS "gemini-2.5-flash" 20 false = pro25Config ∧
    getGeminiModelConfig GEMINI_MODEL_CONFIGS "gemini-2.5-flash" 3 false = flash25Config ∧
    getGeminiModelConfig GEMINI_MODEL_CONFIGS "unknown-model" 0 false = pro25Config :=
  ⟨(selector_policy_order "gemini-2.5-flash" 10 true).1 (by decide),
   (selector_policy_order "gemini-2.5-flash" 20 false).2.1 (by decide) (by decide) (by decide),
   (selector_policy_order "gemini-2.5-flash" 3 false).2.2 (by decide) (by decide),
   (selector_policy_order "unknown-model" 0 false).2.2 (by decide) (by decide)⟩

/-- C1: refuted by the code — the registry is NOT immutable.  A single
`makeGeminiRequest` run on `gemini-2.5-pro` that receives one
output-token-limit rejection and then succeeds leaves
`GEMINI_MODEL_CONFIGS['gemini-2.5-pro'].maxOutputTokens` at 5000, halved
from its process-start value 10000: the halving recovery writes through the
`modelConfig` alias into the shared registry entry. -/
theorem registry_mutated_by_token_recovery :
    (makeGeminiRequest GEMINI_MODEL_CONFIGS "gemini-2.5-pro" sampleMessages 3 false
        [CallOutcome.err tokenLimitErr, CallOutcome.ok "done"]).outcome =
      ExecOutcome.success "done" ∧
    ((makeGeminiRequest GEMINI_MODEL_CONFIGS "gemini-2.5-pro" sampleMessages 3 false
        [CallOutcome.err tokenLimitErr, CallOutcome.ok "done"]).registry
        "gemini-2.5-pro").map (fun c => c.maxOutputTokens) = some 5000 ∧
    (GEMINI_MODEL_CONFIGS "gemini-2.5-pro").map (fun c => c.maxOutputTokens) =
      some 10000 := by
  refine ⟨by decide, by decide, by decide⟩

/-- C2: an output-token-limit rejection with the budget above the floor
halves the budget to `max 2048 (floor(budget * 0.5))` (hence never below
2048) and retries the same model; a pure output-token-limit rejection with
the budget at the floor 2048, when attempts remain, leaves the registry
untouched (no further halving) and continues with `gemini-2.5-flash` as the
current model. -/
theorem budget_halving_and_floor (reg : Registry) (messages : List GeminiMessage)
    (currentModel : String) (attempt maxRetries : Nat) (e : GeminiError) :
    (e.status = some 400 → tokenLimitClass e = true → 2048 < budgetOf reg currentModel →
      geminiCatchStep reg messages currentModel attempt maxRetries e =
        StepRes.next
          (setMaxOutputTokens reg currentModel (max 2048 (budgetOf reg currentModel / 2)))
          messages currentModel none ∧
      budgetOf
          (setMaxOutputTokens reg currentModel (max 2048 (budgetOf reg currentModel / 2)))
          currentModel = max 2048 (budgetOf reg currentModel / 2) ∧
      2048 ≤ max 2048 (budgetOf reg currentModel / 2)) ∧
    (e.status = some 400 → tokenLimitClass e = true → imageClass e = false →
      networkClass e = false → budgetOf reg currentModel = 2048 →
      attempt + 1 < maxRetries →
      ∃ d, geminiCatchStep reg messages currentModel attempt maxRetries e =
        StepRes.next reg messages "gemini-2.5-flash" d) := by
  constructor
  · intro hs ht hb
    refine ⟨?_, ?_, le_max_left _ _⟩
    · unfold geminiCatchStep
      rw [if_pos ⟨hs, ht, hb⟩]
      rfl
    · obtain ⟨c, hc⟩ : ∃ c, reg currentModel = some c := by
        rcases h : reg currentModel with _ | c
        · exfalso; unfold budgetOf at hb; rw [h] at hb; simp [undefinedConfig] at hb
        · exact ⟨c, rfl⟩
      unfold budgetOf setMaxOutputTokens
      rw [if_pos rfl, hc]
      rfl
  · intro hs ht hi hn hb hlt
    have hbdef : ((reg currentModel).getD undefinedConfig).maxOutputTokens = 2048 := hb
    by_cases hm : currentModel = "gemini-2.5-flash"
    · refine ⟨some (min (1000 * 2 ^ (attempt + 1 - 1)) 5000), ?_⟩
      unfold geminiCatchStep
      rw [if_neg (fun h => by rw [hbdef] at h; exact lt_irrefl _ h.2.2),
          if_neg (fun h => h.2.2.1 hm),
          if_neg (fun h => by rw [hi] at h; exact Bool.false_ne_true h.2.1),
          if_neg (fun h => by rw [hn] at h; exact Bool.false_ne_true h.1),
          if_neg (fun h => by rw [hn] at h; exact Bool.false_ne_true h.1),
          if_neg (Nat.not_le.mpr hlt), hm]
    · refine ⟨none, ?_⟩
      unfold geminiCatchStep
      rw [if_neg (fun h => by rw [hbdef] at h; exact lt_irrefl _ h.2.2),
          if_pos ⟨hs, ht, hm, hlt⟩]

/-- Witness for C2: the halving step on `gemini-2.5-pro` (10000 tokens) and
the floor step on a registry whose `gemini-1.5-pro` budget has been reduced
to 2048. -/
theorem budget_halving_and_floor_witness :
    (geminiCatchStep GEMINI_MODEL_CONFIGS sampleMessages "gemini-2.5-pro" 0 3 tokenLimitErr =
      StepRes.next
        (setMaxOutputTokens GEMINI_MODEL_CONFIGS "gemini-2.5-pro"
          (max 2048 (budgetOf GEMINI_MODEL_CONFIGS "gemini-2.5-pro" / 2)))
        sampleMessages "gemini-2.5-pro" none) ∧
    (∃ d, geminiCatchStep (setMaxOutputTokens GEMINI_MODEL_CONFIGS "gemini-1.5-pro" 2048)
        sampleMessages "gemini-1.5-pro" 0 3 tokenLimitErr =
      StepRes.next (setMaxOutputTokens GEMINI_MODEL_CONFIGS "gemini-1.5-pro" 2048)
        sampleMessages "gemini-2.5-flash" d) :=
  ⟨((budget_halving_and_floor GEMINI_MODEL_CONFIGS sampleMessages "gemini-2.5-pro" 0 3
      tokenLimitErr).1 (by decide) (by decide) (by decide)).1,
   (budget_halving_and_floor (setMaxOutputTokens GEMINI_MODEL_CONFIGS "gemini-1.5-pro" 2048)
      sampleMessages "gemini-1.5-pro" 0 3 tokenLimitErr).2 (by decide) (by decide)
      (by decide) (by decide) (by decide) (by decide)⟩

/-- C10: when the image-count recovery fires (HTTP 400 image/media
rejection, not token-classified, with more than one attached image), the
executor replaces `messages[0].parts` by all text parts followed by the
first `max 1 (floor(n * 0.5))` image parts — reordering text ahead of
images — and continues with the rewritten caller-visible payload. -/
theorem image_recovery_rewrites_payload (reg : Registry) (msg0 : GeminiMessage)
    (rest : List GeminiMessage) (currentModel : String) (attempt maxRetries : Nat)
    (e : GeminiError) (hs : e.status = some 400) (himg : imageClass e = true)
    (htok : tokenLimitClass e = false)
    (hn : 1 < (msg0.parts.filter GeminiPart.isImage).length) :
    geminiCatchStep reg (msg0 :: rest) currentModel attempt maxRetries e =
      StepRes.next reg
        (GeminiMessage.mk msg0.role
            (msg0.parts.filter (fun p => ¬ p.isImage) ++
              (msg0.parts.filter GeminiPart.isImage).take
                (max 1 ((msg0.parts.filter GeminiPart.isImage).length / 2))) :: rest)
        currentModel none := by
  unfold geminiCatchStep
  rw [if_neg (fun h => by rw [htok] at h; exact Bool.false_ne_true h.2.1),
      if_neg (fun h => by rw [htok] at h; exact Bool.false_ne_true h.2.1),
      if_pos ⟨hs, himg, hn⟩]
  rfl

/-- Witness for C10: a message with one text part between two images is
rewritten to the text part followed by the first image. -/
theorem image_recovery_rewrites_payload_witness :
    geminiCatchStep GEMINI_MODEL_CONFIGS sampleMessages "gemini-2.5-pro" 0 3 imageCountErr =
      StepRes.next GEMINI_MODEL_CONFIGS
        [{ role := "user",
           parts := [GeminiPart.text "prompt", GeminiPart.inlineData "image/png" "imgA"] }]
        "gemini-2.5-pro" none := by
  have h := image_recovery_rewrites_payload GEMINI_MODEL_CONFIGS
    { role := "user",
      parts := [GeminiPart.text "prompt", GeminiPart.inlineData "image/png" "imgA",
        GeminiPart.inlineData "image/png" "imgB"] }
    [] "gemini-2.5-pro" 0 3 imageCountErr (by decide) (by decide) (by decide) (by decide)
  exact h

theorem geminiLoop_stop (reg : Registry) (messages : List GeminiMessage)
    (currentModel : String) (attempt maxRetries : Nat) (oracle : List CallOutcome)
    (h : ¬ attempt < maxRetries) :
    geminiLoop reg messages currentModel attempt maxRetries oracle =
      ⟨ExecOutcome.allRetriesFailed, [], [], reg, messages, currentModel⟩ := by
  conv_lhs => rw [geminiLoop.eq_def]
  rw [if_neg h]

theorem geminiLoop_ok (reg : Registry) (messages : List GeminiMessage)
    (currentModel : String) (attempt maxRetries : Nat) (resp : String)
    (os : List CallOutcome) (h : attempt < maxRetries) :
    geminiLoop reg messages currentModel attempt maxRetries (CallOutcome.ok resp :: os) =
      ⟨ExecOutcome.success resp, [(currentModel, budgetOf reg currentModel)], [],
        reg, messages, currentModel⟩ := by
  conv_lhs => rw [geminiLoop.eq_def]
  rw [if_pos h]

theorem geminiLoop_err (reg : Registry) (messages : List GeminiMessage)
    (currentModel : String) (attempt maxRetries : Nat) (e : GeminiError)
    (os : List CallOutcome) (h : attempt < maxRetries) :
    geminiLoop reg messages currentModel attempt maxRetries (CallOutcome.err e :: os) =
      match geminiCatchStep reg messages currentModel attempt maxRetries e with
      | .throwErr e' =>
        ⟨ExecOutcome.errorThrown e', [(currentModel, budgetOf reg currentModel)], [],
          reg, messages, currentModel⟩
      | .next reg' messages' model' d =>
        let r := geminiLoop reg' messages' model' (attempt + 1) maxRetries os
        ⟨r.outcome, (currentModel, budgetOf reg currentModel) :: r.trace,
          (match d with | some v => v :: r.delays | none => r.delays),
          r.registry, r.messages, r.finalModel⟩ := by
  conv_lhs => rw [geminiLoop.eq_def]
  rw [if_pos h]

theorem catchStep_token_halve (reg : Registry) (messages : List GeminiMessage)
    (currentModel : String) (attempt maxRetries : Nat) (e : GeminiError)
    (hs : e.status = some 400) (ht : tokenLimitClass e = true)
    (hb : 2048 < budgetOf reg currentModel) :
    geminiCatchStep reg messages currentModel attempt maxRetries e =
      StepRes.next
        (setMaxOutputTokens reg currentModel (max 2048 (budgetOf reg currentModel / 2)))
        messages currentModel none := by
  unfold geminiCatchStep
  rw [if_pos ⟨hs, ht, hb⟩]
  rfl

theorem catchStep_image_halve (reg : Registry) (messages : List GeminiMessage)
    (currentModel : String) (attempt maxRetries : Nat) (e : GeminiError)
    (hs : e.status = some 400) (himg : imageClass e = true)
    (htok : tokenLimitClass e = false)
    (hlen : 1 < (imagesOfMessages messages).length) :
    geminiCatchStep reg messages currentModel attempt maxRetries e =
      StepRes.next reg (reduceMessagesImages messages) currentModel none := by
  unfold geminiCatchStep
  rw [if_neg (fun h => by rw [htok] at h; exact Bool.false_ne_true h.2.1),
      if_neg (fun h => by rw [htok] at h; exact Bool.false_ne_true h.2.1),
      if_pos ⟨hs, himg, hlen⟩]

theorem catchStep_unclassified (reg : Registry) (messages : List GeminiMessage)
    (currentModel : String) (attempt maxRetries : Nat) (e : GeminiError)
    (hs : e.status = none) (hn : networkClass e = false) :
    geminiCatchStep reg messages currentModel attempt maxRetries e =
      if maxRetries ≤ attempt + 1 then StepRes.throwErr e
      else StepRes.next reg messages currentModel
        (some (min (1000 * 2 ^ (attempt + 1 - 1)) 5000)) := by
  unfold geminiCatchStep
  rw [if_neg (fun h => by rw [hs] at h; exact Option.noConfusion h.1),
      if_neg (fun h => by rw [hs] at h; exact Option.noConfusion h.1),
      if_neg (fun h => by rw [hs] at h; exact Option.noConfusion h.1),
      if_neg (fun h => by rw [hn] at h; exact Bool.false_ne_true h.1),
      if_neg (fun h => by rw [hn] at h; exact Bool.false_ne_true h.1)]

theorem catchStep_throw_inv (reg : Registry) (messages : List GeminiMessage)
    (currentModel : String) (attempt maxRetries : Nat) (e e' : GeminiError)
    (h : geminiCatchStep reg messages currentModel attempt maxRetries e =
      StepRes.throwErr e') :
    e' = e ∧ maxRetries ≤ attempt + 1 := by
  simp only [geminiCatchStep] at h
  split_ifs at h with h1 h2 h3 h4 h5 h6
  all_goals first
    | exact StepRes.noConfusion h
    | (injection h with hh; exact ⟨hh.symm, h6⟩)

theorem catchStep_last_attempt (reg : Registry) (messages : List GeminiMessage)
    (currentModel : String) (maxRetries : Nat) (e : GeminiError) (h1 : 1 ≤ maxRetries)
    (hb1 : ¬ (e.status = some 400 ∧ tokenLimitClass e = true ∧
      2048 < budgetOf reg currentModel))
    (hb3 : ¬ (e.status = some 400 ∧ imageClass e = true ∧
      1 < (imagesOfMessages messages).length)) :
    geminiCatchStep reg messages currentModel (maxRetries - 1) maxRetries e =
      StepRes.throwErr e := by
  have hm : ¬ (maxRetries - 1 + 1 < maxRetries) := by omega
  unfold geminiCatchStep
  rw [if_neg (fun h => hb1 ⟨h.1, h.2.1, h.2.2⟩),
      if_neg (fun h => hm h.2.2.2),
      if_neg (fun h => hb3 ⟨h.1, h.2.1, h.2.2⟩),
      if_neg (fun h => hm h.2.1), if_neg (fun h => hm h.2.1),
      if_pos (by omega : maxRetries ≤ maxRetries - 1 + 1)]

theorem geminiLoop_err_exhausts (oracle : List CallOutcome) :
    ∀ (reg : Registry) (messages : List GeminiMessage) (currentModel : String)
      (attempt maxRetries : Nat),
      (∀ o ∈ oracle, ∃ e, o = CallOutcome.err e) →
      attempt < maxRetries → maxRetries - attempt ≤ oracle.length →
      (geminiLoop reg messages currentModel attempt maxRetries oracle).trace.length =
          maxRetries - attempt ∧
        ((geminiLoop reg messages currentModel attempt maxRetries oracle).outcome =
            ExecOutcome.allRetriesFailed ∨
          ∃ e, (geminiLoop reg messages currentModel attempt maxRetries oracle).outcome =
            ExecOutcome.errorThrown e) := by
  induction oracle with
  | nil =>
    intro reg messages currentModel attempt maxRetries _ hlt hlen
    simp only [List.length_nil] at hlen
    omega
  | cons o os ih =>
    intro reg messages currentModel attempt maxRetries herr hlt hlen
    obtain ⟨e, rfl⟩ := herr o (List.mem_cons_self o os)
    rw [geminiLoop_err reg messages currentModel attempt maxRetries e os hlt]
    cases hstep : geminiCatchStep reg messages currentModel attempt maxRetries e with
    | throwErr e' =>
      obtain ⟨rfl, hle⟩ := catchStep_throw_inv reg messages currentModel attempt
        maxRetries e e' hstep
      dsimp only
      refine ⟨?_, Or.inr ⟨_, rfl⟩⟩
      simp only [List.length_cons, List.length_nil]
      omega
    | next reg' messages' model' d =>
      dsimp only
      by_cases hcont : attempt + 1 < maxRetries
      · have hlen' : maxRetries - (attempt + 1) ≤ os.length := by
          simp only [List.length_cons] at hlen
          omega
        have herr' : ∀ o ∈ os, ∃ e, o = CallOutcome.err e :=
          fun o ho => herr o (List.mem_cons_of_mem _ ho)
        obtain ⟨htr, hout⟩ := ih reg' messages' model' (attempt + 1) maxRetries
          herr' hcont hlen'
        constructor
        · simp only [List.length_cons, htr]
          omega
        · exact hout
      · rw [geminiLoop_stop reg' messages' model' (attempt + 1) maxRetries os hcont]
        refine ⟨?_, Or.inl rfl⟩
        simp only [List.length_cons, List.length_nil]
        omega

theorem geminiLoop_cancel_run (k : Nat) :
    ∀ (reg : Registry) (messages : List GeminiMessage) (currentModel : String)
      (attempt maxRetries : Nat) (e : GeminiError),
      e.status = none → networkClass e = false →
      attempt < maxRetries → maxRetries - attempt ≤ k →
      (geminiLoop reg messages currentModel attempt maxRetries
          (List.replicate k (CallOutcome.err e))).outcome = ExecOutcome.errorThrown e ∧
      (geminiLoop reg messages currentModel attempt maxRetries
          (List.replicate k (CallOutcome.err e))).trace.length = maxRetries - attempt ∧
      (geminiLoop reg messages currentModel attempt maxRetries
          (List.replicate k (CallOutcome.err e))).delays.length =
        maxRetries - attempt - 1 ∧
      (geminiLoop reg messages currentModel attempt maxRetries
          (List.replicate k (CallOutcome.err e))).registry = reg ∧
      (geminiLoop reg messages currentModel attempt maxRetries
          (List.replicate k (CallOutcome.err e))).messages = messages := by
  induction k with
  | zero =>
    intro reg messages currentModel attempt maxRetries e _ _ hlt hlen
    omega
  | succ n ih =>
    intro reg messages currentModel attempt maxRetries e hs hn hlt hlen
    rw [List.replicate_succ,
      geminiLoop_err reg messages currentModel attempt maxRetries e _ hlt,
      catchStep_unclassified reg messages currentModel attempt maxRetries e hs hn]
    by_cases hend : maxRetries ≤ attempt + 1
    · rw [if_pos hend]
      dsimp only
      refine ⟨rfl, ?_, ?_, rfl, rfl⟩
      · simp only [List.length_cons, List.length_nil]
        omega
      · simp only [List.length_nil]
        omega
    · rw [if_neg hend]
      dsimp only
      obtain ⟨ho, htr, hd, hreg, hmsg⟩ := ih reg messages currentModel (attempt + 1)
        maxRetries e hs hn (by omega) (by omega)
      refine ⟨ho, ?_, ?_, hreg, hmsg⟩
      · simp only [List.length_cons, htr]
        omega
      · simp only [List.length_cons, hd]
        omega

/-- C3: for every `maxAttempts ≥ 1` and every oracle of more than
`maxAttempts` injected Shape errors (HTTP 400, token-limit or image-count
class), `makeGeminiRequest` issues exactly `maxAttempts` provider calls —
never fewer, never more — and terminates raising an exhausted failure
(either the last underlying error or the generic all-retries-failed
error). -/
theorem executor_exhausts_exactly (modelName : String)
    (messages : List GeminiMessage) (isDebug : Bool) (maxAttempts : Nat)
    (oracle : List CallOutcome) (h1 : 1 ≤ maxAttempts) (h2 : maxAttempts < oracle.length)
    (hshape : ∀ o ∈ oracle, ∃ e, o = CallOutcome.err e ∧ e.status = some 400 ∧
      (tokenLimitClass e = true ∨ imageClass e = true)) :
    (makeGeminiRequest GEMINI_MODEL_CONFIGS modelName messages maxAttempts isDebug
        oracle).trace.length = maxAttempts ∧
    ((makeGeminiRequest GEMINI_MODEL_CONFIGS modelName messages maxAttempts isDebug
          oracle).outcome = ExecOutcome.allRetriesFailed ∨
      ∃ e, (makeGeminiRequest GEMINI_MODEL_CONFIGS modelName messages maxAttempts isDebug
          oracle).outcome = ExecOutcome.errorThrown e) := by
  simp only [makeGeminiRequest]
  obtain ⟨htr, hout⟩ := geminiLoop_err_exhausts oracle GEMINI_MODEL_CONFIGS messages
    (getGeminiModelConfig GEMINI_MODEL_CONFIGS modelName
      (imagesOfMessages messages).length isDebug).name 0 maxAttempts
    (fun o ho => ⟨(hshape o ho).choose, (hshape o ho).choose_spec.1⟩)
    (by omega) (by omega)
  exact ⟨by simpa using htr, hout⟩

/-- Witness for C3: four injected token-limit rejections with the default
`maxRetries = 3` produce exactly three provider calls. -/
theorem executor_exhausts_exactly_witness :
    (makeGeminiRequest GEMINI_MODEL_CONFIGS "gemini-2.5-pro" sampleMessages 3 false
        (List.replicate 4 (CallOutcome.err tokenLimitErr))).trace.length = 3 ∧
    ((makeGeminiRequest GEMINI_MODEL_CONFIGS "gemini-2.5-pro" sampleMessages 3 false
          (List.replicate 4 (CallOutcome.err tokenLimitErr))).outcome =
        ExecOutcome.allRetriesFailed ∨
      ∃ e, (makeGeminiRequest GEMINI_MODEL_CONFIGS "gemini-2.5-pro" sampleMessages 3 false
          (List.replicate 4 (CallOutcome.err tokenLimitErr))).outcome =
        ExecOutcome.errorThrown e) :=
  executor_exhausts_exactly "gemini-2.5-pro" sampleMessages false 3
    (List.replicate 4 (CallOutcome.err tokenLimitErr)) (by decide) (by decide)
    (fun o ho => ⟨tokenLimitErr, by rw [List.eq_of_mem_replicate ho], rfl, Or.inl rfl⟩)

theorem catchStep_last_image (reg : Registry) (messages : List GeminiMessage)
    (currentModel : String) (maxRetries : Nat) (e : GeminiError) (h1 : 1 ≤ maxRetries)
    (hb1 : ¬ (e.status = some 400 ∧ tokenLimitClass e = true ∧
      2048 < budgetOf reg currentModel))
    (hb3 : e.status = some 400 ∧ imageClass e = true ∧
      1 < (imagesOfMessages messages).length) :
    geminiCatchStep reg messages currentModel (maxRetries - 1) maxRetries e =
      StepRes.next reg (reduceMessagesImages messages) currentModel none := by
  have hm : ¬ (maxRetries - 1 + 1 < maxRetries) := by omega
  unfold geminiCatchStep
  rw [if_neg (fun h => hb1 ⟨h.1, h.2.1, h.2.2⟩),
      if_neg (fun h => hm h.2.2.2),
      if_pos ⟨hb3.1, hb3.2.1, hb3.2.2⟩]

/-- C4 (amended): on the final attempt, the loop surfaces the last
underlying provider error if and only if that error does not fire a
shrinking recovery — i.e. it is not a token-limit rejection with budget
above the floor and not an image rejection with more than one attached
image; when the final error does fire one of those recoveries, the loop
falls out of the `while` and throws the generic
`'All retry attempts failed'` error instead. -/
theorem final_attempt_error_surfacing (reg : Registry)
    (messages : List GeminiMessage) (currentModel : String) (maxRetries : Nat)
    (e : GeminiError) (h1 : 1 ≤ maxRetries) :
    ((geminiLoop reg messages currentModel (maxRetries - 1) maxRetries
          [CallOutcome.err e]).outcome = ExecOutcome.errorThrown e ↔
      ¬ (e.status = some 400 ∧ tokenLimitClass e = true ∧
          2048 < budgetOf reg currentModel) ∧
      ¬ (e.status = some 400 ∧ imageClass e = true ∧
          1 < (imagesOfMessages messages).length)) ∧
    ((e.status = some 400 ∧ tokenLimitClass e = true ∧
          2048 < budgetOf reg currentModel) ∨
        (e.status = some 400 ∧ imageClass e = true ∧
          1 < (imagesOfMessages messages).length) →
      (geminiLoop reg messages currentModel (maxRetries - 1) maxRetries
          [CallOutcome.err e]).outcome = ExecOutcome.allRetriesFailed) := by
  have hlt : maxRetries - 1 < maxRetries := by omega
  rw [geminiLoop_err reg messages currentModel (maxRetries - 1) maxRetries e [] hlt]
  by_cases hb1 : e.status = some 400 ∧ tokenLimitClass e = true ∧
      2048 < budgetOf reg currentModel
  · rw [catchStep_token_halve reg messages currentModel (maxRetries - 1) maxRetries e
      hb1.1 hb1.2.1 hb1.2.2]
    dsimp only
    rw [geminiLoop_stop _ _ _ (maxRetries - 1 + 1) maxRetries [] (by omega)]
    exact ⟨⟨fun h => ExecOutcome.noConfusion h, fun h => absurd hb1 h.1⟩, fun _ => rfl⟩
  · by_cases hb3 : e.status = some 400 ∧ imageClass e = true ∧
        1 < (imagesOfMessages messages).length
    · rw [catchStep_last_image reg messages currentModel maxRetries e h1 hb1 hb3]
      dsimp only
      rw [geminiLoop_stop _ _ _ (maxRetries - 1 + 1) maxRetries [] (by omega)]
      exact ⟨⟨fun h => ExecOutcome.noConfusion h, fun h => absurd hb3 h.2⟩, fun _ => rfl⟩
    · rw [catchStep_last_attempt reg messages currentModel maxRetries e h1 hb1 hb3]
      dsimp only
      refine ⟨⟨fun _ => ⟨hb1, hb3⟩, fun _ => rfl⟩, fun h => ?_⟩
      rcases h with h | h
      · exact absurd h hb1
      · exact absurd h hb3

/-- Witness for C4 (amended): an unclassified HTTP 500 on the final attempt
is surfaced as the underlying error. -/
theorem final_attempt_error_surfacing_witness :
    (geminiLoop GEMINI_MODEL_CONFIGS sampleMessages "gemini-2.5-pro" 0 1
        [CallOutcome.err serverErr]).outcome = ExecOutcome.errorThrown serverErr :=
  (final_attempt_error_surfacing GEMINI_MODEL_CONFIGS sampleMessages "gemini-2.5-pro" 1
      serverErr (by decide)).1.mpr ⟨by decide, by decide⟩

/-- Counterexample to C4 as stated: with `maxRetries = 1` and a single
token-limit rejection (budget 10000 > 2048), the surfaced outcome is the
generic all-retries-failed error, not the last underlying provider
error. -/
theorem final_attempt_error_surfacing_counterexample :
    (makeGeminiRequest GEMINI_MODEL_CONFIGS "gemini-2.5-pro" sampleMessages 1 false
        [CallOutcome.err tokenLimitErr]).outcome = ExecOutcome.allRetriesFailed ∧
    ¬ (makeGeminiRequest GEMINI_MODEL_CONFIGS "gemini-2.5-pro" sampleMessages 1 false
        [CallOutcome.err tokenLimitErr]).outcome =
      ExecOutcome.errorThrown tokenLimitErr := by
  exact ⟨by decide, by decide⟩

/-- C5 (amended): the retry loop never consults the abort signal — a
cancellation error is unclassified, so the run performs all `maxRetries`
provider calls with `maxRetries - 1` backoff delays, then throws the
cancellation error itself; the inner Gemini catch that receives it has no
`isCancel` check and reports the generic Gemini failure, not the distinct
canceled outcome. -/
theorem cancellation_not_aborting_loop (reg : Registry) (modelName : String)
    (messages : List GeminiMessage) (isDebug : Bool) (maxRetries : Nat)
    (e : GeminiError) (h1 : 1 ≤ maxRetries) (hc : e.canceled = true)
    (hs : e.status = none) (hn : networkClass e = false) :
    (makeGeminiRequest reg modelName messages maxRetries isDebug
        (List.replicate maxRetries (CallOutcome.err e))).outcome =
      ExecOutcome.errorThrown e ∧
    (makeGeminiRequest reg modelName messages maxRetries isDebug
        (List.replicate maxRetries (CallOutcome.err e))).trace.length = maxRetries ∧
    (makeGeminiRequest reg modelName messages maxRetries isDebug
        (List.replicate maxRetries (CallOutcome.err e))).delays.length = maxRetries - 1 ∧
    extractionGeminiCatch e =
      "Failed to process with Gemini API. Please check your API key or try again later." ∧
    extractionGeminiCatch e ≠ "Processing was canceled by the user." := by
  simp only [makeGeminiRequest]
  obtain ⟨ho, htr, hd, _, _⟩ := geminiLoop_cancel_run maxRetries reg messages
    (getGeminiModelConfig reg modelName
      (imagesOfMessages messages).length isDebug).name 0 maxRetries e hs hn
    (by omega) (by omega)
  have hcatch : extractionGeminiCatch e =
      "Failed to process with Gemini API. Please check your API key or try again later." := by
    unfold extractionGeminiCatch
    rw [if_neg (fun h => by rw [hs] at h; exact Option.noConfusion h),
        if_neg (fun h => by rw [hs] at h; exact Option.noConfusion h.1)]
  refine ⟨ho, by simpa using htr, by simpa using hd, hcatch, ?_⟩
  rw [hcatch]
  decide

/-- Witness for C5 (amended): two injected cancellation errors with
`maxRetries = 2`, reported by the inner Gemini catch as the generic
failure. -/
theorem cancellation_not_aborting_loop_witness :
    (makeGeminiRequest GEMINI_MODEL_CONFIGS "gemini-2.5-flash" sampleMessages 2 false
        (List.replicate 2 (CallOutcome.err cancelErr))).outcome =
      ExecOutcome.errorThrown cancelErr ∧
    (makeGeminiRequest GEMINI_MODEL_CONFIGS "gemini-2.5-flash" sampleMessages 2 false
        (List.replicate 2 (CallOutcome.err cancelErr))).trace.length = 2 ∧
    (makeGeminiRequest GEMINI_MODEL_CONFIGS "gemini-2.5-flash" sampleMessages 2 false
        (List.replicate 2 (CallOutcome.err cancelErr))).delays.length = 2 - 1 ∧
    extractionGeminiCatch cancelErr =
      "Failed to process with Gemini API. Please check your API key or try again later." ∧
    extractionGeminiCatch cancelErr ≠ "Processing was canceled by the user." :=
  cancellation_not_aborting_loop GEMINI_MODEL_CONFIGS "gemini-2.5-flash" sampleMessages
    false 2 cancelErr (by decide) (by decide) (by decide) (by decide)

/-- Counterexample to C5 as stated: after a canceled first attempt the loop
performs backoff delays of 1000 ms and 2000 ms and issues three provider
calls in total, so a canceled attempt IS followed by further calls and
delays; and the thrown cancellation error is reported by the inner Gemini
catch as the generic Gemini failure, not as a distinct canceled outcome. -/
theorem cancellation_claim_counterexample :
    (makeGeminiRequest GEMINI_MODEL_CONFIGS "gemini-2.5-pro" sampleMessages 3 false
        (List.replicate 3 (CallOutcome.err cancelErr))).delays = [1000, 2000] ∧
    (makeGeminiRequest GEMINI_MODEL_CONFIGS "gemini-2.5-pro" sampleMessages 3 false
        (List.replicate 3 (CallOutcome.err cancelErr))).trace.length = 3 ∧
    (makeGeminiRequest GEMINI_MODEL_CONFIGS "gemini-2.5-pro" sampleMessages 3 false
        (List.replicate 3 (CallOutcome.err cancelErr))).outcome =
      ExecOutcome.errorThrown cancelErr ∧
    extractionGeminiCatch cancelErr =
      "Failed to process with Gemini API. Please check your API key or try again later." ∧
    extractionGeminiCatch cancelErr ≠ "Processing was canceled by the user." := by
  exact ⟨by decide, by decide, by decide, by decide, by decide⟩

theorem take_append_take {α : Type} (A B : List α) (n : Nat) :
    (A ++ B.take n).take n = (A ++ B).take n := by
  rw [List.take_append_eq_append_take, List.take_append_eq_append_take,
    List.take_take, Nat.min_eq_left (Nat.sub_le _ _)]

theorem storeSolutionAttempt_eq (store : List PreviousSolution)
    (solution : SolutionAttemptData) (now : Nat) :
    storeSolutionAttempt store solution now =
      (mkPreviousSolution solution now :: store).take maxStoredSolutions := by
  unfold storeSolutionAttempt
  by_cases hlen : maxStoredSolutions < (mkPreviousSolution solution now :: store).length
  · rw [if_pos hlen]
  · rw [if_neg hlen, List.take_of_length_le (not_lt.mp hlen)]

theorem recordAll_from (attempts : List (SolutionAttemptData × Nat)) :
    ∀ init : List PreviousSolution, init.length ≤ maxStoredSolutions →
      attempts.foldl (fun store a => storeSolutionAttempt store a.1 a.2) init =
        ((attempts.map (fun a => mkPreviousSolution a.1 a.2)).reverse ++ init).take
          maxStoredSolutions := by
  induction attempts with
  | nil =>
    intro init h
    simp only [List.foldl_nil, List.map_nil, List.reverse_nil, List.nil_append]
    exact (List.take_of_length_le h).symm
  | cons a as ih =>
    intro init h
    rw [List.foldl_cons, storeSolutionAttempt_eq init a.1 a.2,
      ih ((mkPreviousSolution a.1 a.2 :: init).take maxStoredSolutions)
        (by rw [List.length_take]; exact Nat.min_le_left _ _),
      take_append_take, List.map_cons, List.reverse_cons, List.append_assoc,
      List.singleton_append]

/-- C8: starting from the empty store, the Debug Memory Store's length
stays at most 10 after every prefix of `storeSolutionAttempt` calls, and
after more than 10 calls it holds exactly the 10 most recently recorded
entries, newest first. -/
theorem debug_store_capped (attempts : List (SolutionAttemptData × Nat)) :
    (∀ n, (recordAll (attempts.take n)).length ≤ maxStoredSolutions) ∧
    (maxStoredSolutions < attempts.length →
      recordAll attempts =
        ((attempts.map (fun a => mkPreviousSolution a.1 a.2)).reverse).take
          maxStoredSolutions ∧
      (recordAll attempts).length = maxStoredSolutions) := by
  have hfold : ∀ l : List (SolutionAttemptData × Nat),
      recordAll l =
        ((l.map (fun a => mkPreviousSolution a.1 a.2)).reverse).take maxStoredSolutions := by
    intro l
    have h := recordAll_from l [] (by simp [maxStoredSolutions])
    simpa [recordAll] using h
  constructor
  · intro n
    rw [hfold, List.length_take]
    exact Nat.min_le_left _ _
  · intro h
    refine ⟨hfold attempts, ?_⟩
    rw [hfold, List.length_take, List.length_reverse, List.length_map]
    exact Nat.min_eq_left (le_of_lt h)

/-- Witness for C8: eleven recordings leave exactly ten entries, the ten
most recent in newest-first order. -/
theorem debug_store_capped_witness :
    recordAll elevenAttempts =
      ((elevenAttempts.map (fun a => mkPreviousSolution a.1 a.2)).reverse).take
        maxStoredSolutions ∧
    (recordAll elevenAttempts).length = maxStoredSolutions :=
  (debug_store_capped elevenAttempts).2 (by decide)

theorem mem_storeSolutionAttempt (store : List PreviousSolution)
    (solution : SolutionAttemptData) (now : Nat) (sol : PreviousSolution)
    (h : sol ∈ storeSolutionAttempt store solution now) :
    sol = mkPreviousSolution solution now ∨ sol ∈ store := by
  unfold storeSolutionAttempt at h
  by_cases hlen : maxStoredSolutions <
      (mkPreviousSolution solution now :: store).length
  · rw [if_pos hlen] at h
    exact List.mem_cons.mp (List.mem_of_mem_take h)
  · rw [if_neg hlen] at h
    exact List.mem_cons.mp h

theorem runDebugSessions_all_failed (sessions : List DebugSession) :
    ∀ sol ∈ runDebugSessions sessions, sol.success = false := by
  suffices h : ∀ init : List PreviousSolution, (∀ sol ∈ init, sol.success = false) →
      ∀ sol ∈ sessions.foldl debugSessionStep init, sol.success = false by
    exact h [] (by intro sol hs; exact absurd hs (List.not_mem_nil sol))
  induction sessions with
  | nil => intro init hinit; simpa using hinit
  | cons s ss ih =>
    intro init hinit
    rw [List.foldl_cons]
    refine ih (debugSessionStep init s) ?_
    intro sol hsol
    unfold debugSessionStep at hsol
    by_cases hc : s.extractedCode ≠ "" ∧
        s.extractedCode ≠ "// Debug mode - see analysis below"
    · rw [if_pos hc] at hsol
      rcases mem_storeSolutionAttempt _ _ _ _ hsol with rfl | hmem
      · rfl
      · exact hinit sol hmem
    · rw [if_neg hc] at hsol
      exact hinit sol hsol

/-- C9: the debug flow records every entry with `success = false`, so from
an empty store no sequence of debug sessions can make
`getLastWorkingSolution` return an entry, and the debug prompt is built
with an empty PREVIOUS WORKING SOLUTION section (the section can appear
only when a `success = true` entry was loaded from external storage). -/
theorem debug_flow_never_records_success (sessions : List DebugSession)
    (p lang currentCode : String) (failedTestCases : List TestCaseFailure) :
    (∀ sol ∈ runDebugSessions sessions, sol.success = false) ∧
    getLastWorkingSolution (runDebugSessions sessions) p = none ∧
    (getPreviousSolutions (runDebugSessions sessions) p 5).find?
        (fun s => s.success) = none ∧
    generateEnhancedDebugPrompt p lang currentCode
        (getPreviousSolutions (runDebugSessions sessions) p 5) failedTestCases =
      debugPromptBase p lang currentCode ++ workingSolutionSection lang none ++
        failedTestCasesSection failedTestCases ++
        recentFailuresSection (getPreviousSolutions (runDebugSessions sessions) p 5) ++
        responseStructureSection lang none := by
  have hall := runDebugSessions_all_failed sessions
  have hfind : (getPreviousSolutions (runDebugSessions sessions) p 5).find?
      (fun s => s.success) = none := by
    refine List.find?_eq_none.mpr ?_
    intro x hx
    have hmem : x ∈ runDebugSessions sessions :=
      (List.mem_filter.mp (List.mem_of_mem_take hx)).1
    simp [hall x hmem]
  refine ⟨hall, ?_, hfind, ?_⟩
  · refine List.find?_eq_none.mpr ?_
    intro x hx
    simp [hall x hx]
  · unfold generateEnhancedDebugPrompt
    rw [hfind]

/-- Witness for C9 on two concrete debug sessions. -/
theorem debug_flow_never_records_success_witness :
    getLastWorkingSolution (runDebugSessions sampleDebugSessions) "Two Sum" = none ∧
    (getPreviousSolutions (runDebugSessions sampleDebugSessions) "Two Sum" 5).find?
        (fun s => s.success) = none :=
  ⟨(debug_flow_never_records_success sampleDebugSessions "Two Sum" "python" "" []).2.1,
   (debug_flow_never_records_success sampleDebugSessions "Two Sum" "python" "" []).2.2.1⟩
